import Mathlib

/-!
Verification development for the ZapierEvents repository.

The definitions below are a shallow embedding of the event lifecycle and
delivery engine of the repository: the `Event` data model
(`src/models/event.py`), the storage adapter viewed as an association list
keyed by `event_id` (`src/storage/dynamodb.py`), the request handlers
(`src/handlers/events.py`: create, update, acknowledge, replay and the
batch variants), the queue worker (`src/delivery/worker.py`), the
in-memory filter evaluator (`src/utils/filters.py`) and the batch helpers
(`src/utils/batch_helpers.py`).

External effects are made explicit: the push delivery client's outcome and
the queue client's behaviour are parameters, and each handler model records
the store it leaves behind together with a trace of the effectful calls it
made (deliveries attempted, queue send invocations, writes).  Timestamps
are abstracted as natural numbers.  Python values that can appear inside an
event payload are modelled by `PyVal`.
-/

namespace ZapierEvents

/-- Model of a Python/JSON value as it appears in event payloads, metadata
and attribute lookups (numbers are kept exact as rationals, which is enough
for the decimal literals appearing in the spec's test vectors). -/
inductive PyVal where
  | vstr (s : String)
  | vnum (q : Rat)
  | vbool (b : Bool)
  | vnone
  | vdict (entries : List (String × PyVal))
  | vdatetime (t : Nat)

/-- The Event model of `src/models/event.py`.  Status is kept as a string,
constrained by the source to pending / delivered / failed / replayed.
Timestamps are abstract instants (naturals). -/
structure EventRec where
  event_id : String
  event_type : String
  payload : List (String × PyVal)
  metadata : Option (List (String × PyVal))
  status : String
  created_at : Nat
  delivered_at : Option Nat
  delivery_attempts : Nat
  user_id : Option String
  idempotency_key : Option String

/-- The event store: DynamoDB viewed as a table keyed by `event_id`. -/
abbrev EventStore := List EventRec

/-- `get_event` of `src/storage/dynamodb.py`: fetch by primary id. -/
def get_event (store : EventStore) (eventId : String) : Option EventRec :=
  store.find? (fun e => e.event_id == eventId)

/-- `put_event` / `update_event` of `src/storage/dynamodb.py`: DynamoDB
`put_item` replaces the whole item with the same key, or inserts it. -/
def put_event (store : EventStore) (e : EventRec) : EventStore :=
  if store.any (fun x => x.event_id == e.event_id) then
    store.map (fun x => if x.event_id == e.event_id then e else x)
  else
    store ++ [e]

/-- `get_event_by_idempotency_key` of `src/storage/dynamodb.py`: when the
caller identity is unresolved (`user_id is None`) the method returns `None`
without querying; otherwise it queries the `(user_id, idempotency_key)`
index with `Limit=1`. -/
def get_event_by_idempotency_key (store : EventStore) (userId : Option String)
    (key : String) : Option EventRec :=
  match userId with
  | none => none
  | some u =>
      store.find? (fun e => e.user_id == some u && e.idempotency_key == some key)

/-! ### Batch helpers (`src/utils/batch_helpers.py`) -/

/-- Loop body of `chunk_list` for chunk size `csPred + 1`: repeatedly slice
off the next `csPred + 1` items until the list is exhausted. -/
def chunkListGo (csPred : Nat) : List α → List (List α)
  | [] => []
  | x :: xs => (x :: xs).take (csPred + 1) :: chunkListGo csPred (xs.drop csPred)
termination_by l => l.length
decreasing_by
  simp only [List.length_cons]
  exact Nat.lt_succ_of_le (List.length_drop csPred xs ▸ Nat.sub_le _ _)

/-- `chunk_list` of `src/utils/batch_helpers.py`: raises `ValueError` when
`chunk_size <= 0`, otherwise slices `items[i:i+chunk_size]` for
`i = 0, chunk_size, 2*chunk_size, ...`. -/
def chunk_list (items : List α) (chunkSize : Int) : Except String (List (List α)) :=
  if chunkSize ≤ 0 then Except.error "chunk_size must be positive"
  else Except.ok (chunkListGo (chunkSize.toNat - 1) items)

/-- `validate_batch_size` of `src/utils/batch_helpers.py`: raises
`ValueError` when the batch exceeds the maximum.  It is called by
`batch_create_events` and the list mode of `batch_update_events` with a
maximum of 100 before any item is processed, and its `ValueError` is
turned into an HTTP 400 by those handlers. -/
def validate_batch_size (items : List α) (maxSize : Nat) : Except String Unit :=
  if items.length > maxSize then Except.error "batch size cannot exceed max items"
  else Except.ok ()

/-- Insertion loop of a Python `set` viewed as an insertion-ordered list
of distinct ids: ids already seen are skipped. -/
def dedupIdsGo (seen : List String) : List String → List String
  | [] => []
  | x :: xs =>
      if seen.contains x then dedupIdsGo seen xs
      else x :: dedupIdsGo (x :: seen) xs

/-- Removal of duplicate ids, modelling the `set` of event ids accumulated
by `batch_delete_events` and `batch_replay_events`. -/
def dedupIds (l : List String) : List String := dedupIdsGo [] l

/-- The union of the ids matched by the filters (in filter mode) and the
ids listed in the request body, before deduplication. -/
def batchUnion (filteredIds : List String) (bodyIds : Option (List String))
    (hasFilters : Bool) : List String :=
  (if hasFilters then filteredIds else []) ++
    (match bodyIds with | some l => l | none => [])

/-- Handler-level target-id resolution shared by `batch_delete_events`
(lines 1226-1322) and `batch_replay_events` (lines 2179-2281) of
`src/handlers/events.py`, running after the request model has already
validated the body (see `validateBatchDeleteBody`): take the union of the
ids matched by the filters and the ids listed in the request body; an
empty union is an empty success in filter mode and a `ValueError` /
HTTP 400 otherwise; a non-empty union is capped to its first 100 ids
(`list(event_ids_set)[:100]`) with only a logged warning. -/
def resolveBatchTargets (filteredIds : List String) (bodyIds : Option (List String))
    (hasFilters : Bool) : Except String (List String) :=
  let ids := dedupIds (batchUnion filteredIds bodyIds hasFilters)
  if ids.isEmpty then
    if hasFilters then Except.ok []
    else Except.error "Either provide event_ids or use query parameter filters"
  else Except.ok (ids.take 100)

/-! ### Filter engine (`src/utils/filters.py`) -/

/-- A single filter condition, as produced by `parse_filter_params`: a
field path, an operator name and the raw query-string value (values coming
from the HTTP query string are always strings). -/
structure EventFilter where
  field : String
  operator : String
  value : String

/-- Splitter used to model Python's `field.split('.')`, processing the
string character by character. -/
def splitDotsGo (acc : List Char) : List Char → List String
  | [] => [String.mk acc.reverse]
  | c :: cs =>
      if c = '.' then String.mk acc.reverse :: splitDotsGo [] cs
      else splitDotsGo (c :: acc) cs

/-- Python `field.split('.')`. -/
def splitDots (s : String) : List String := splitDotsGo [] s.toList

/-- Python `startswith` over character lists. -/
def startsWithList : List Char → List Char → Bool
  | _, [] => true
  | [], _ :: _ => false
  | h :: hs, n :: ns => h == n && startsWithList hs ns

/-- Python `str.startswith`. -/
def strStartsWith (hay needle : String) : Bool :=
  startsWithList hay.toList needle.toList

/-- Substring occurrence over character lists. -/
def subListOccurs (needle : List Char) : List Char → Bool
  | [] => startsWithList [] needle
  | c :: cs => startsWithList (c :: cs) needle || subListOccurs needle cs

/-- Python substring test `needle in hay` for strings. -/
def strContains (hay needle : String) : Bool :=
  subListOccurs needle.toList hay.toList

/-- Python regex `^evt_[a-z0-9]{12}$` from the `BatchDeleteEventRequest`
validator. -/
def isValidEventIdStr (s : String) : Bool :=
  let cs := s.toList
  cs.length == 16 && startsWithList cs ("evt_".toList) &&
    (cs.drop 4).all (fun c =>
      (decide ('a' ≤ c) && decide (c ≤ 'z')) ||
      (decide ('0' ≤ c) && decide (c ≤ '9')))

/-- The `event_ids` validation of `BatchDeleteEventRequest`
(`src/models/request.py` lines 419-467), run by pydantic before the
handler: an absent list is accepted, a provided list must be non-empty,
contain at most 100 ids, and every id must match `^evt_[a-z0-9]{12}$`;
a violation rejects the whole call with a validation error. -/
def validateBatchDeleteBody (bodyIds : Option (List String)) : Except String Unit :=
  match bodyIds with
  | none => Except.ok ()
  | some v =>
      if v.isEmpty then Except.error "event_ids list cannot be empty if provided"
      else if v.length > 100 then Except.error "batch size cannot exceed 100 events"
      else if v.all isValidEventIdStr then Except.ok ()
      else Except.error "invalid event_id format"

/-- The batch-delete target pipeline as the program runs it: pydantic
validates the request body (rejecting an over-100 or malformed id list
before the handler runs), then the handler unions the filter matches with
the body ids and caps the resolved set at 100. -/
def batchDeleteTargets (filteredIds : List String) (bodyIds : Option (List String))
    (hasFilters : Bool) : Except String (List String) := do
  validateBatchDeleteBody bodyIds
  resolveBatchTargets filteredIds bodyIds hasFilters

/-- Python `==` between a field value and the (string) filter value:
equality between a non-string and a string is `False`, never an error. -/
def pyValEqStr : PyVal → String → Bool
  | .vstr t, s => t == s
  | _, _ => false

/-- Python ordering comparison between a field value and the (string)
filter value: strings compare lexicographically; comparing a number,
boolean, dict or datetime against a string raises `TypeError`. -/
def pyValOrdStr : PyVal → String → Except String Ordering
  | .vstr t, s => Except.ok (compare t s)
  | _, _ => Except.error "TypeError: comparison not supported between instances"

/-- Attribute lookup on the Event model, used by the first path component
of `_get_field_value` (Python `hasattr`/`getattr` on the pydantic model). -/
def eventAttr (e : EventRec) (name : String) : Option PyVal :=
  if name == "event_id" then some (.vstr e.event_id)
  else if name == "event_type" then some (.vstr e.event_type)
  else if name == "payload" then some (.vdict e.payload)
  else if name == "metadata" then
    some (match e.metadata with | some m => .vdict m | none => .vnone)
  else if name == "status" then some (.vstr e.status)
  else if name == "created_at" then some (.vdatetime e.created_at)
  else if name == "delivered_at" then
    some (match e.delivered_at with | some t => .vdatetime t | none => .vnone)
  else if name == "delivery_attempts" then some (.vnum e.delivery_attempts)
  else if name == "user_id" then
    some (match e.user_id with | some u => .vstr u | none => .vnone)
  else if name == "idempotency_key" then
    some (match e.idempotency_key with | some k => .vstr k | none => .vnone)
  else none

/-- Remaining path components of `_get_field_value`: walk into nested
dicts; a missing key (or indexing into a non-dict) yields `None`. -/
def walkPath : PyVal → List String → Option PyVal
  | v, [] => some v
  | .vdict d, p :: rest =>
      match d.find? (fun kv => kv.1 == p) with
      | some kv => walkPath kv.2 rest
      | none => none
  | _, _ :: _ => none

/-- `_get_field_value` of `src/utils/filters.py`: split the field path on
dots, resolve the first component as an Event attribute and the rest by
walking nested dicts. -/
def getFieldValue (e : EventRec) (field : String) : Option PyVal :=
  match splitDots field with
  | [] => none
  | p :: rest =>
      match eventAttr e p with
      | some v => walkPath v rest
      | none => none

/-- `_event_matches_filter` of `src/utils/filters.py`.  A missing field or
a `None` value is a non-match; `eq`/`ne` use Python equality (never an
error); the ordering operators use Python comparison, which raises
`TypeError` when the field value is not a string (the query value always
is); `contains`/`startswith` only match string field values; an unknown
operator matches nothing. -/
def eventMatchesFilter (e : EventRec) (f : EventFilter) : Except String Bool :=
  match getFieldValue e f.field with
  | none => Except.ok false
  | some PyVal.vnone => Except.ok false
  | some v =>
      if f.operator == "eq" then Except.ok (pyValEqStr v f.value)
      else if f.operator == "ne" then Except.ok (!pyValEqStr v f.value)
      else if f.operator == "gt" then
        (pyValOrdStr v f.value).map (fun o => o == Ordering.gt)
      else if f.operator == "gte" then
        (pyValOrdStr v f.value).map (fun o => o != Ordering.lt)
      else if f.operator == "lt" then
        (pyValOrdStr v f.value).map (fun o => o == Ordering.lt)
      else if f.operator == "lte" then
        (pyValOrdStr v f.value).map (fun o => o != Ordering.gt)
      else if f.operator == "contains" then
        Except.ok (match v with | .vstr t => strContains t f.value | _ => false)
      else if f.operator == "startswith" then
        Except.ok (match v with | .vstr t => strStartsWith t f.value | _ => false)
      else Except.ok false

/-- `_event_matches_filters` of `src/utils/filters.py`: conjunction over
all filter conditions, stopping at the first non-match. -/
def eventMatchesFilters (e : EventRec) : List EventFilter → Except String Bool
  | [] => Except.ok true
  | f :: fs => do
      let b ← eventMatchesFilter e f
      if b then eventMatchesFilters e fs else pure false

/-- Loop of `apply_filters_to_events`: keep the events matching all
conditions, in order; a `TypeError` raised while evaluating a condition
propagates out. -/
def filterLoop (fs : List EventFilter) : List EventRec → Except String (List EventRec)
  | [] => Except.ok []
  | e :: rest => do
      let b ← eventMatchesFilters e fs
      let tail ← filterLoop fs rest
      pure (if b then e :: tail else tail)

/-- `apply_filters_to_events` of `src/utils/filters.py`. -/
def apply_filters_to_events (events : List EventRec) (fs : List EventFilter) :
    Except String (List EventRec) :=
  if fs.isEmpty then Except.ok events else filterLoop fs events

/-! ### Event lifecycle engine (`src/handlers/events.py`) -/

/-- Outcome of one call to the push delivery client, from the lifecycle
engine's point of view: `deliver_event` returned `True`, returned `False`,
or raised an exception. -/
inductive DeliverOutcome where
  | success
  | failure
  | raises

/-- Python `user_id = get_user_id_from_request(http_request) or
request.user_id` in `create_event` (the authorizer value is never the
empty string, so `or` reduces to preferring it when present). -/
def resolveUserId (authUser reqUser : Option String) : Option String :=
  match authUser with
  | some u => some u
  | none => reqUser

/-- The body of a `POST /events` request (`CreateEventRequest`). -/
structure CreateReq where
  event_type : String
  payload : List (String × PyVal)
  metadata : Option (List (String × PyVal))
  idempotency_key : Option String
  user_id : Option String

/-- Observable result of `create_event`: the HTTP status, whether the
"already exists" marker was returned, the event id in the response, the
store left behind, and the trace of writes, delivery attempts and queue
send invocations (each recorded send carries the full event payload that
was passed to `send_message`). -/
structure CreateResult where
  httpStatus : Nat
  alreadyExists : Bool
  eventId : String
  store : EventStore
  putCalls : Nat
  updateCalls : Nat
  deliverCalls : Nat
  sends : List EventRec

/-- The event record constructed by `create_event` before the delivery
attempt: `status="pending"`, `delivery_attempts=0`, `delivered_at=None`. -/
def pendingEventOf (userId : Option String) (req : CreateReq)
    (freshId : String) (now : Nat) : EventRec :=
  { event_id := freshId, event_type := req.event_type, payload := req.payload,
    metadata := req.metadata, status := "pending", created_at := now,
    delivered_at := none, delivery_attempts := 0, user_id := userId,
    idempotency_key := req.idempotency_key }

/-- The in-place mutation applied by `create_event` when the immediate
push succeeds: `status="delivered"`, `delivered_at=now`,
`delivery_attempts=1`. -/
def deliveredEventOf (userId : Option String) (req : CreateReq)
    (freshId : String) (now : Nat) : EventRec :=
  { pendingEventOf userId req freshId now with
    status := "delivered", delivered_at := some now, delivery_attempts := 1 }

/-- The fresh-event path of `create_event` (`src/handlers/events.py` lines
223-330): store the pending event, then attempt one push delivery.  On
success the event is updated to delivered.  On a `False` return the event
is queued once; if that `send_message` call raises, the surrounding
`except` block makes one further `send_message` attempt whose own failure
is swallowed.  If `deliver_event` itself raises, the `except` block makes
a single `send_message` attempt.  The handler returns HTTP 201 in every
one of these cases. -/
def createNewEvent (store : EventStore) (userId : Option String) (req : CreateReq)
    (freshId : String) (now : Nat) (deliver : DeliverOutcome)
    (sendRaises : Bool) : CreateResult :=
  let ev := pendingEventOf userId req freshId now
  let store1 := put_event store ev
  match deliver with
  | .success =>
      { httpStatus := 201, alreadyExists := false, eventId := freshId,
        store := put_event store1 (deliveredEventOf userId req freshId now),
        putCalls := 1, updateCalls := 1, deliverCalls := 1, sends := [] }
  | .failure =>
      { httpStatus := 201, alreadyExists := false, eventId := freshId,
        store := store1, putCalls := 1, updateCalls := 0, deliverCalls := 1,
        sends := if sendRaises then [ev, ev] else [ev] }
  | .raises =>
      { httpStatus := 201, alreadyExists := false, eventId := freshId,
        store := store1, putCalls := 1, updateCalls := 0, deliverCalls := 1,
        sends := [ev] }

/-- `create_event` of `src/handlers/events.py` (lines 184-330): resolve
the caller, and when a (truthy) idempotency key is present look it up; a
hit returns the existing event with HTTP 200 and the "already exists"
message, performing no write, no delivery attempt and no queue send;
otherwise the fresh-event path runs. -/
def create_event (store : EventStore) (authUser : Option String) (req : CreateReq)
    (freshId : String) (now : Nat) (deliver : DeliverOutcome)
    (sendRaises : Bool) : CreateResult :=
  let userId := resolveUserId authUser req.user_id
  match req.idempotency_key with
  | some key =>
      if key == "" then createNewEvent store userId req freshId now deliver sendRaises
      else
        match get_event_by_idempotency_key store userId key with
        | some existing =>
            { httpStatus := 200, alreadyExists := true, eventId := existing.event_id,
              store := store, putCalls := 0, updateCalls := 0, deliverCalls := 0,
              sends := [] }
        | none => createNewEvent store userId req freshId now deliver sendRaises
  | none => createNewEvent store userId req freshId now deliver sendRaises

/-- The body of a `PATCH /events/{id}` request (`UpdateEventRequest`):
for each field, `none` means the field was absent from the request and
`some none` means it was explicitly set to `null` (pydantic
`exclude_unset` semantics). -/
structure UpdateReq where
  payloadField : Option (Option (List (String × PyVal)))
  metadataField : Option (Option (List (String × PyVal)))
  keyField : Option (Option String)

/-- Caller-visible outcome of `update_event`. -/
inductive UpdateOutcome where
  | notFound
  | forbidden
  | badRequest (msg : String)
  | updated (redelivered : Bool)

/-- Observable result of `update_event`: outcome, resulting store, queue
send invocations and store writes. -/
structure UpdateResult where
  outcome : UpdateOutcome
  store : EventStore
  sends : List EventRec
  updateCalls : Nat

/-- The field-application part of `update_event`: a provided non-null
payload replaces the payload; provided metadata replaces the metadata
(possibly clearing it to null); a provided idempotency key replaces the
key (possibly removing it).  Absent fields are left untouched. -/
def applyUpdateFields (req : UpdateReq) (e : EventRec) : EventRec :=
  let e1 := match req.payloadField with
            | some (some p) => { e with payload := p }
            | _ => e
  let e2 := match req.metadataField with
            | some m => { e1 with metadata := m }
            | none => e1
  match req.keyField with
  | some k => { e2 with idempotency_key := k }
  | none => e2

/-- `update_event` of `src/handlers/events.py` (lines 1838-1957): 404 when
the event is absent; 403 when the caller is resolved and differs from the
event's owner; 400 when no field is provided or a provided payload is
null; otherwise apply the provided fields, and when the pre-update status
is delivered or replayed reset it to pending, clear `delivered_at` and
enqueue the updated event once (a send failure is logged, not fatal),
then persist. -/
def update_event_handler (store : EventStore) (eventId : String) (req : UpdateReq)
    (authUser : Option String) : UpdateResult :=
  match get_event store eventId with
  | none => { outcome := .notFound, store := store, sends := [], updateCalls := 0 }
  | some e =>
      if authUser.isSome && e.user_id != authUser then
        { outcome := .forbidden, store := store, sends := [], updateCalls := 0 }
      else if req.payloadField.isNone && req.metadataField.isNone &&
          req.keyField.isNone then
        { outcome := .badRequest "At least one of payload, metadata, or idempotency_key must be provided",
          store := store, sends := [], updateCalls := 0 }
      else
        match req.payloadField with
        | some none =>
            { outcome := .badRequest "payload cannot be null",
              store := store, sends := [], updateCalls := 0 }
        | _ =>
            let e3 := applyUpdateFields req e
            if e3.status == "delivered" || e3.status == "replayed" then
              let e4 := { e3 with status := "pending", delivered_at := none }
              { outcome := .updated true, store := put_event store e4,
                sends := [e4], updateCalls := 1 }
            else
              { outcome := .updated false, store := put_event store e3,
                sends := [], updateCalls := 1 }

/-- Observable result of `acknowledge_event`. -/
structure AckResult where
  found : Bool
  store : EventStore

/-- `acknowledge_event` of `src/handlers/events.py` (lines 2083-2096):
404 when the event is absent; otherwise set `status="delivered"` and
`delivered_at=now` and persist, touching nothing else. -/
def acknowledge_event (store : EventStore) (eventId : String) (now : Nat) : AckResult :=
  match get_event store eventId with
  | none => { found := false, store := store }
  | some e =>
      { found := true,
        store := put_event store
          { e with status := "delivered", delivered_at := some now } }

/-- The `replay_metadata` dict built by `replay_event` /
`batch_replay_events` (timestamps rendered as strings as `isoformat`
does). -/
def replayMetadata (reason : String) (workflowId : Option String) (now : Nat)
    (e : EventRec) : List (String × PyVal) :=
  [("is_replay", .vbool true),
   ("replayed_at", .vstr (toString now)),
   ("replay_reason", .vstr reason),
   ("original_created_at", .vstr (toString e.created_at)),
   ("original_status", .vstr e.status)] ++
  (match workflowId with
   | some w => [("target_workflow_id", .vstr w)]
   | none => [])

/-- Python `dict.update`: existing keys are overwritten in place, new
keys are appended in order. -/
def dictUpdate (base upd : List (String × PyVal)) : List (String × PyVal) :=
  base.map (fun kv =>
    match upd.find? (fun kv2 => kv2.1 == kv.1) with
    | some kv2 => (kv.1, kv2.2)
    | none => kv) ++
  upd.filter (fun kv2 => !(base.any (fun kv => kv.1 == kv2.1)))

/-- `if event.metadata: event.metadata.update(replay_metadata) else:
event.metadata = replay_metadata` — an empty dict is falsy in Python, so
it is replaced outright. -/
def mergeReplayMetadata (meta : Option (List (String × PyVal)))
    (rmeta : List (String × PyVal)) : List (String × PyVal) :=
  match meta with
  | some m => if m.isEmpty then rmeta else dictUpdate m rmeta
  | none => rmeta

/-- Caller-visible outcome of `replay_event`: 404, the HTTP 400
max-attempts rejection, a successful replay, or a queued retry. -/
inductive ReplayOutcome where
  | notFound
  | maxAttempts
  | replayedOk
  | queuedOk

/-- Observable result of `replay_event`. -/
structure ReplayResult where
  outcome : ReplayOutcome
  store : EventStore
  deliverCalls : Nat
  updateCalls : Nat
  sends : List EventRec

/-- `replay_event` of `src/handlers/events.py` (lines 2481-2588): 404 when
absent; HTTP 400 when `delivery_attempts >= 10`, before any mutation;
otherwise merge the replay provenance into the metadata and attempt one
delivery.  Success stores `status="replayed"`, an incremented counter and
`delivered_at=now`; failure stores `status="pending"` with an incremented
counter (the source does not clear `delivered_at` here) and enqueues the
event once. -/
def replay_event (store : EventStore) (eventId reason : String)
    (workflowId : Option String) (now : Nat) (deliverOk : Bool) : ReplayResult :=
  match get_event store eventId with
  | none =>
      { outcome := .notFound, store := store, deliverCalls := 0,
        updateCalls := 0, sends := [] }
  | some e =>
      if e.delivery_attempts ≥ 10 then
        { outcome := .maxAttempts, store := store, deliverCalls := 0,
          updateCalls := 0, sends := [] }
      else
        let m1 := some (mergeReplayMetadata e.metadata
          (replayMetadata reason workflowId now e))
        let e1 := { e with metadata := m1 }
        if deliverOk then
          let e2 := { e1 with
            status := "replayed"
            delivery_attempts := e1.delivery_attempts + 1
            delivered_at := some now }
          { outcome := .replayedOk, store := put_event store e2,
            deliverCalls := 1, updateCalls := 1, sends := [] }
        else
          let e2 := { e1 with
            status := "pending"
            delivery_attempts := e1.delivery_attempts + 1 }
          { outcome := .queuedOk, store := put_event store e2,
            deliverCalls := 1, updateCalls := 1, sends := [e2] }

/-- Per-item result record of `batch_replay_events`. -/
structure BatchReplayItemRes where
  success : Bool
  errorCode : Option String
  itemStatus : String

/-- Observable result of one iteration of the `batch_replay_events`
loop. -/
structure BatchReplayStepResult where
  item : BatchReplayItemRes
  store : EventStore
  deliverCalls : Nat
  sends : List EventRec

/-- Loop body of `batch_replay_events` (`src/handlers/events.py` lines
2299-2421) for one event id: not-found and ownership failures come first,
then the `delivery_attempts >= 10` rejection (before any mutation), then
the same metadata merge and delivery attempt as the single replay, with
`reason='batch_replay'` and no workflow hint. -/
def batchReplayStep (store : EventStore) (userId : Option String) (eventId : String)
    (now : Nat) (deliverOk : Bool) : BatchReplayStepResult :=
  match get_event store eventId with
  | none =>
      { item := { success := false, errorCode := some "NOT_FOUND", itemStatus := "failed" },
        store := store, deliverCalls := 0, sends := [] }
  | some e =>
      if userId.isSome && e.user_id != userId then
        { item := { success := false, errorCode := some "FORBIDDEN", itemStatus := "failed" },
          store := store, deliverCalls := 0, sends := [] }
      else if e.delivery_attempts ≥ 10 then
        { item := { success := false, errorCode := some "MAX_ATTEMPTS_EXCEEDED",
                    itemStatus := "failed" },
          store := store, deliverCalls := 0, sends := [] }
      else
        let m1 := some (mergeReplayMetadata e.metadata
          (replayMetadata "batch_replay" none now e))
        let e1 := { e with metadata := m1 }
        if deliverOk then
          let e2 := { e1 with
            status := "replayed"
            delivery_attempts := e1.delivery_attempts + 1
            delivered_at := some now }
          { item := { success := true, errorCode := none, itemStatus := "replayed" },
            store := put_event store e2, deliverCalls := 1, sends := [] }
        else
          let e2 := { e1 with
            status := "pending"
            delivery_attempts := e1.delivery_attempts + 1 }
          { item := { success := true, errorCode := none, itemStatus := "pending" },
            store := put_event store e2, deliverCalls := 1, sends := [e2] }

/-- Observable result of one SQS record processed by the worker. -/
structure WorkerStepResult where
  store : EventStore
  reportedFailure : Bool
  deliverCalls : Nat

/-- Loop body of the worker `handler` of `src/delivery/worker.py` (lines
149-196) for one queue record: re-read the event by id; a missing event is
skipped without reporting a failure; otherwise attempt one delivery —
success stores delivered with an incremented counter, failure stores an
incremented counter and reports the message for queue redelivery. -/
def workerStep (store : EventStore) (msgEventId : String) (now : Nat)
    (deliverOk : Bool) : WorkerStepResult :=
  match get_event store msgEventId with
  | none => { store := store, reportedFailure := false, deliverCalls := 0 }
  | some e =>
      if deliverOk then
        let e2 := { e with
          status := "delivered"
          delivered_at := some now
          delivery_attempts := e.delivery_attempts + 1 }
        { store := put_event store e2, reportedFailure := false, deliverCalls := 1 }
      else
        let e2 := { e with delivery_attempts := e.delivery_attempts + 1 }
        { store := put_event store e2, reportedFailure := true, deliverCalls := 1 }

/-! ### Concrete fixtures used by the claim witnesses -/

/-- First fixture event for the filter claims: `order.created` with a
numeric payload amount of 99.99. -/
def filterEvent1 : EventRec :=
  { event_id := "evt_aaaaaaaaaaa1", event_type := "order.created",
    payload := [("order_id", .vstr "12345"), ("amount", .vnum (99.99 : Rat))],
    metadata := none, status := "pending", created_at := 1,
    delivered_at := none, delivery_attempts := 0,
    user_id := none, idempotency_key := none }

/-- Second fixture event for the filter claims: `user.created` with a
numeric payload amount of 150.00. -/
def filterEvent2 : EventRec :=
  { event_id := "evt_aaaaaaaaaaa2", event_type := "user.created",
    payload := [("user_ref", .vstr "67890"), ("amount", .vnum (150.00 : Rat))],
    metadata := none, status := "pending", created_at := 2,
    delivered_at := none, delivery_attempts := 0,
    user_id := none, idempotency_key := none }

/-- Third fixture event for the filter claims: `order.shipped` with a
numeric payload amount of 75.50. -/
def filterEvent3 : EventRec :=
  { event_id := "evt_aaaaaaaaaaa3", event_type := "order.shipped",
    payload := [("order_id", .vstr "54321"), ("amount", .vnum (75.50 : Rat))],
    metadata := none, status := "pending", created_at := 3,
    delivered_at := none, delivery_attempts := 0,
    user_id := none, idempotency_key := none }

/-- A create request carrying an idempotency key, for the idempotency
witness. -/
def wCreateReqKeyed : CreateReq :=
  { event_type := "order.created",
    payload := [("order_id", .vstr "12345")],
    metadata := none, idempotency_key := some "order-12345", user_id := none }

/-- A create request without an idempotency key, for the delivery-fallback
and counter witnesses. -/
def wCreateReqPlain : CreateReq :=
  { event_type := "order.created",
    payload := [("order_id", .vstr "12345")],
    metadata := none, idempotency_key := none, user_id := none }

/-- A stored event in status `delivered`, used by the update, replay and
counter witnesses. -/
def wDelivered : EventRec :=
  { event_id := "evt_ddddddddddd1", event_type := "order.created",
    payload := [("order_id", .vstr "77")], metadata := none,
    status := "delivered", created_at := 4, delivered_at := some 5,
    delivery_attempts := 1, user_id := some "u1", idempotency_key := none }

/-- A stored event that has reached the replay ceiling
(`delivery_attempts = 10`). -/
def wMaxedOut : EventRec :=
  { event_id := "evt_ddddddddddd2", event_type := "order.created",
    payload := [("order_id", .vstr "88")], metadata := none,
    status := "pending", created_at := 6, delivered_at := none,
    delivery_attempts := 10, user_id := some "u1", idempotency_key := none }

/-- An update request that only provides new metadata. -/
def wUpdateReq : UpdateReq :=
  { payloadField := none,
    metadataField := some (some [("source", .vstr "manual")]),
    keyField := none }

/-- 100 distinct, validly formatted event ids, standing for a filter match
that fills the `list_events` page limit of 100. -/
def filteredIds100 : List String :=
  (List.range 100).map (fun i =>
    let s := toString i
    "evt_aaaaaaaaa" ++ String.mk (List.replicate (3 - s.length) '0') ++ s)

/-! ### Store lemmas -/

theorem put_event_of_fresh (s : EventStore) (e : EventRec)
    (h : ∀ x ∈ s, x.event_id ≠ e.event_id) : put_event s e = s ++ [e] := by
  have hany : s.any (fun x => x.event_id == e.event_id) = false := by
    rw [List.any_eq_false]
    intro x hx
    simpa using h x hx
  simp [put_event, hany]

theorem put_event_replace_last (s : EventStore) (e e' : EventRec) (fid : String)
    (h : ∀ x ∈ s, x.event_id ≠ fid) (he : e.event_id = fid) (he' : e'.event_id = fid) :
    put_event (s ++ [e]) e' = s ++ [e'] := by
  have hany : (s ++ [e]).any (fun x => x.event_id == e'.event_id) = true := by
    rw [List.any_eq_true]
    exact ⟨e, by simp, by simp [he, he']⟩
  rw [put_event, if_pos hany, List.map_append]
  congr 1
  · have hcong : List.map (fun x => if x.event_id == e'.event_id then e' else x) s =
        List.map (fun x => x) s := by
      apply List.map_congr_left
      intro x hx
      have hne : (x.event_id == e'.event_id) = false := by
        rw [he']
        simp [h x hx]
      simp [hne]
    rw [hcong, List.map_id']
  · simp [he, he']

theorem get_event_append_fresh (s : EventStore) (e : EventRec) (fid : String)
    (h : ∀ x ∈ s, x.event_id ≠ fid) (he : e.event_id = fid) :
    get_event (s ++ [e]) fid = some e := by
  have hnone : s.find? (fun x => x.event_id == fid) = none := by
    rw [List.find?_eq_none]
    intro x hx
    simpa using h x hx
  rw [get_event, List.find?_append, hnone]
  simp [List.find?, he]

theorem find?_map_replace (s : EventStore) (id : String) (e' : EventRec)
    (hid : e'.event_id = id)
    (hmem : (s.find? (fun x => x.event_id == id)).isSome) :
    (s.map (fun x => if x.event_id == e'.event_id then e' else x)).find?
      (fun x => x.event_id == id) = some e' := by
  induction s with
  | nil => simp at hmem
  | cons x rest ih =>
      by_cases hx : x.event_id = id
      · simp [List.find?, hid, hx]
      · have hxb : (x.event_id == id) = false := by simp [hx]
        have hmem' : (rest.find? (fun x => x.event_id == id)).isSome := by
          rw [List.find?_cons] at hmem
          simpa [hxb] using hmem
        have hxb' : (x.event_id == e'.event_id) = false := by
          simp [hid, hx]
        simp only [List.map_cons, hxb', if_neg, List.find?_cons, hxb]
        simpa [hxb] using ih hmem'

theorem get_event_put_of_found (s : EventStore) (id : String) (e e' : EventRec)
    (hf : get_event s id = some e) (hid : e'.event_id = id) :
    get_event (put_event s e') id = some e' := by
  simp only [get_event] at hf
  have hpe := List.find?_some hf
  have hmemE : e ∈ s := List.mem_of_find?_eq_some hf
  have hany : s.any (fun x => x.event_id == e'.event_id) = true := by
    rw [List.any_eq_true]
    exact ⟨e, hmemE, by simpa [hid] using hpe⟩
  rw [get_event, put_event, if_pos hany]
  exact find?_map_replace s id e' hid (by simp [hf])

theorem find?_map_ne (s : EventStore) (e' : EventRec) (id' : String)
    (h : e'.event_id ≠ id') :
    (s.map (fun x => if x.event_id == e'.event_id then e' else x)).find?
      (fun x => x.event_id == id') = s.find? (fun x => x.event_id == id') := by
  induction s with
  | nil => rfl
  | cons x rest ih =>
      by_cases hx : x.event_id = e'.event_id
      · have hhead : (if x.event_id == e'.event_id then e' else x) = e' := by simp [hx]
        have hbe' : (e'.event_id == id') = false := by simp [h]
        have hbx : (x.event_id == id') = false := by simp [hx, h]
        simp only [List.map_cons, hhead, List.find?]
        rw [hbe', hbx]
        exact ih
      · have hhead : (if x.event_id == e'.event_id then e' else x) = x := by simp [hx]
        simp only [List.map_cons, hhead, List.find?]
        cases hbx : (x.event_id == id') with
        | true => rfl
        | false => exact ih

theorem get_event_put_ne (s : EventStore) (e' : EventRec) (id' : String)
    (h : e'.event_id ≠ id') :
    get_event (put_event s e') id' = get_event s id' := by
  rw [put_event]
  split
  · simp only [get_event]
    exact find?_map_ne s e' id' h
  · simp only [get_event]
    rw [List.find?_append]
    have hne : (e'.event_id == id') = false := by simp [h]
    simp [List.find?, hne]

/-! ### Chunking lemmas -/

theorem chunkListGo_nil (csPred : Nat) : chunkListGo csPred ([] : List α) = [] := by
  rw [chunkListGo]

theorem chunkListGo_join (csPred : Nat) (items : List α) :
    (chunkListGo csPred items).flatten = items := by
  match items with
  | [] => rw [chunkListGo]; rfl
  | x :: xs =>
    have ih := chunkListGo_join csPred (xs.drop csPred)
    rw [chunkListGo, List.flatten, ih, List.take_succ_cons, List.cons_append,
      List.take_append_drop]
termination_by items.length
decreasing_by
  simp only [List.length_cons]
  exact Nat.lt_succ_of_le (List.length_drop csPred xs ▸ Nat.sub_le _ _)

theorem chunkListGo_ne_nil (csPred : Nat) (items : List α) :
    ∀ c ∈ chunkListGo csPred items, c ≠ [] := by
  match items with
  | [] => rw [chunkListGo]; intro c hc; cases hc
  | x :: xs =>
    have ih := chunkListGo_ne_nil csPred (xs.drop csPred)
    rw [chunkListGo]
    intro c hc
    rcases List.mem_cons.mp hc with h | h
    · subst h; rw [List.take_succ_cons]; exact List.cons_ne_nil _ _
    · exact ih c h
termination_by items.length
decreasing_by
  simp only [List.length_cons]
  exact Nat.lt_succ_of_le (List.length_drop csPred xs ▸ Nat.sub_le _ _)

theorem chunkListGo_dropLast_length (csPred : Nat) (items : List α) :
    ∀ c ∈ (chunkListGo csPred items).dropLast, c.length = csPred + 1 := by
  match items with
  | [] => rw [chunkListGo]; intro c hc; cases hc
  | x :: xs =>
    have ih := chunkListGo_dropLast_length csPred (xs.drop csPred)
    rw [chunkListGo]
    cases hrest : chunkListGo csPred (xs.drop csPred) with
    | nil => intro c hc; cases hc
    | cons y ys =>
      intro c hc
      rw [List.dropLast_cons_of_ne_nil (List.cons_ne_nil y ys)] at hc
      rcases List.mem_cons.mp hc with h | h
      · subst h
        have hdrop : xs.drop csPred ≠ [] := by
          intro hd
          rw [hd, chunkListGo_nil] at hrest
          exact List.cons_ne_nil y ys hrest.symm
        have hlen : csPred < xs.length := by
          by_contra hle
          exact hdrop (List.drop_eq_nil_of_le (Nat.le_of_not_lt hle))
        rw [List.length_take, List.length_cons]
        omega
      · rw [hrest] at ih
        exact ih c h
termination_by items.length
decreasing_by
  simp only [List.length_cons]
  exact Nat.lt_succ_of_le (List.length_drop csPred xs ▸ Nat.sub_le _ _)

/-- C10: for every list of items and every positive chunk size,
`chunk_list` succeeds, concatenating its chunks in order returns the
original list, every chunk is non-empty, and every chunk except possibly
the last has exactly `chunk_size` elements. -/
theorem chunk_list_roundtrip (items : List α) (chunkSize : Int) (h : 0 < chunkSize) :
    ∃ chunks, chunk_list items chunkSize = Except.ok chunks ∧
      chunks.flatten = items ∧ (∀ c ∈ chunks, c ≠ []) ∧
      (∀ c ∈ chunks.dropLast, c.length = chunkSize.toNat) := by
  have hnot : ¬ chunkSize ≤ 0 := Int.not_le.mpr h
  have htn : 1 ≤ chunkSize.toNat := by omega
  refine ⟨chunkListGo (chunkSize.toNat - 1) items, ?_, ?_, ?_, ?_⟩
  · rw [chunk_list, if_neg hnot]
  · exact chunkListGo_join _ items
  · exact chunkListGo_ne_nil _ items
  · intro c hc
    have := chunkListGo_dropLast_length (chunkSize.toNat - 1) items c hc
    omega

theorem chunk_list_roundtrip_witness :
    (0 : Int) < 2 ∧
    ∃ chunks, chunk_list [1, 2, 3, 4, 5] (2 : Int) = Except.ok chunks ∧
      chunks.flatten = [1, 2, 3, 4, 5] ∧ (∀ c ∈ chunks, c ≠ []) ∧
      (∀ c ∈ chunks.dropLast, c.length = (2 : Int).toNat) :=
  ⟨by decide, chunk_list_roundtrip [1, 2, 3, 4, 5] 2 (by decide)⟩

/-! ### Lifecycle lemmas and claims -/

theorem createNewEvent_store (store : EventStore) (userId : Option String)
    (req : CreateReq) (freshId : String) (now : Nat) (d : DeliverOutcome) (sr : Bool)
    (hfresh : ∀ x ∈ store, x.event_id ≠ freshId) :
    (createNewEvent store userId req freshId now d sr).store =
      store ++ [match d with
                | .success => deliveredEventOf userId req freshId now
                | .failure => pendingEventOf userId req freshId now
                | .raises => pendingEventOf userId req freshId now] := by
  cases d with
  | success =>
      show put_event (put_event store (pendingEventOf userId req freshId now))
        (deliveredEventOf userId req freshId now) = _
      rw [put_event_of_fresh store _ hfresh]
      exact put_event_replace_last store _ _ freshId hfresh rfl rfl
  | failure =>
      show put_event store (pendingEventOf userId req freshId now) = _
      exact put_event_of_fresh store _ hfresh
  | raises =>
      show put_event store (pendingEventOf userId req freshId now) = _
      exact put_event_of_fresh store _ hfresh

/-- C1: for every owner and (truthy) idempotency key, calling create twice
with the same key and owner yields exactly one stored event carrying that
`(owner, key)` pair; the second call performs no write and no delivery
attempt, makes no queue send, returns the first event's id with the
"already exists" HTTP 200 response, and leaves the stored event's
`delivery_attempts` unchanged. -/
theorem create_idempotent (s : EventStore) (authUser : Option String) (req : CreateReq)
    (owner key freshId freshId2 : String) (now now2 : Nat)
    (d1 d2 : DeliverOutcome) (sr1 sr2 : Bool)
    (hresolve : resolveUserId authUser req.user_id = some owner)
    (hkey : req.idempotency_key = some key) (hkeyne : key ≠ "")
    (hnone : get_event_by_idempotency_key s (some owner) key = none)
    (hfresh : ∀ x ∈ s, x.event_id ≠ freshId)
    (r1 r2 : CreateResult)
    (hr1 : r1 = create_event s authUser req freshId now d1 sr1)
    (hr2 : r2 = create_event r1.store authUser req freshId2 now2 d2 sr2) :
    r2.httpStatus = 200 ∧ r2.alreadyExists = true ∧ r2.eventId = freshId ∧
    r2.store = r1.store ∧ r2.putCalls = 0 ∧ r2.updateCalls = 0 ∧
    r2.deliverCalls = 0 ∧ r2.sends = [] ∧
    (r1.store.filter
      (fun e => e.user_id == some owner && e.idempotency_key == some key)).length = 1 ∧
    (get_event r2.store freshId).map (fun e => e.delivery_attempts) =
      (get_event r1.store freshId).map (fun e => e.delivery_attempts) := by
  have hkeyb : (key == "") = false := by simp [hkeyne]
  have hc1 : create_event s authUser req freshId now d1 sr1 =
      createNewEvent s (some owner) req freshId now d1 sr1 := by
    rw [create_event, hresolve, hkey]
    simp [hkeyb, hnone]
  have hstore1 : r1.store = s ++ [match d1 with
      | DeliverOutcome.success => deliveredEventOf (some owner) req freshId now
      | DeliverOutcome.failure => pendingEventOf (some owner) req freshId now
      | DeliverOutcome.raises => pendingEventOf (some owner) req freshId now] := by
    rw [hr1, hc1]
    exact createNewEvent_store s (some owner) req freshId now d1 sr1 hfresh
  set ev1 := (match d1 with
      | DeliverOutcome.success => deliveredEventOf (some owner) req freshId now
      | DeliverOutcome.failure => pendingEventOf (some owner) req freshId now
      | DeliverOutcome.raises => pendingEventOf (some owner) req freshId now) with hev1
  have hev_id : ev1.event_id = freshId := by cases d1 <;> rfl
  have hev_user : ev1.user_id = some owner := by cases d1 <;> rfl
  have hev_key : ev1.idempotency_key = req.idempotency_key := by cases d1 <;> rfl
  have hfindnone : s.find?
      (fun e => e.user_id == some owner && e.idempotency_key == some key) = none := by
    have h0 := hnone
    rw [get_event_by_idempotency_key] at h0
    exact h0
  have hp : (ev1.user_id == some owner && ev1.idempotency_key == some key) = true := by
    rw [hev_user, hev_key, hkey]
    simp
  have hlook : get_event_by_idempotency_key r1.store (some owner) key = some ev1 := by
    rw [hstore1, get_event_by_idempotency_key, List.find?_append, hfindnone]
    simp [List.find?, hp]
  have hc2 : create_event r1.store authUser req freshId2 now2 d2 sr2 =
      { httpStatus := 200, alreadyExists := true, eventId := ev1.event_id,
        store := r1.store, putCalls := 0, updateCalls := 0, deliverCalls := 0,
        sends := [] } := by
    rw [create_event, hresolve, hkey]
    simp [hkeyb, hlook]
  have hfilter : (r1.store.filter
      (fun e => e.user_id == some owner && e.idempotency_key == some key)).length = 1 := by
    rw [hstore1, List.filter_append]
    have hfs : s.filter
        (fun e => e.user_id == some owner && e.idempotency_key == some key) = [] := by
      rw [List.filter_eq_nil_iff]
      intro a ha
      have := List.find?_eq_none.mp hfindnone a ha
      simpa using this
    rw [hfs]
    simp [List.filter, hp]
  subst hr2
  rw [hc2]
  refine ⟨rfl, rfl, hev_id, rfl, rfl, rfl, rfl, rfl, hfilter, rfl⟩

theorem create_idempotent_witness :
    let r1 := create_event [] (some "u1") wCreateReqKeyed "evt_eeeeeeeeeee1" 10
      DeliverOutcome.success false
    let r2 := create_event r1.store (some "u1") wCreateReqKeyed "evt_eeeeeeeeeee2" 11
      DeliverOutcome.success false
    r2.httpStatus = 200 ∧ r2.alreadyExists = true ∧ r2.eventId = "evt_eeeeeeeeeee1" ∧
    r2.store = r1.store ∧ r2.putCalls = 0 ∧ r2.updateCalls = 0 ∧
    r2.deliverCalls = 0 ∧ r2.sends = [] ∧
    (r1.store.filter
      (fun e => e.user_id == some "u1" && e.idempotency_key == some "order-12345")).length = 1 ∧
    (get_event r2.store "evt_eeeeeeeeeee1").map (fun e => e.delivery_attempts) =
      (get_event r1.store "evt_eeeeeeeeeee1").map (fun e => e.delivery_attempts) :=
  create_idempotent [] (some "u1") wCreateReqKeyed "u1" "order-12345"
    "evt_eeeeeeeeeee1" "evt_eeeeeeeeeee2" 10 11 .success .success false false
    rfl rfl (by decide) rfl (by simp) _ _ rfl rfl

/-- C2 (counterexample): when the push delivery returns `False` and the
first queue send raises, the fallback `except` block of `create_event`
makes a second `send_message` call, so the queue send operation is invoked
twice rather than exactly once. -/
theorem create_fallback_counterexample :
    (create_event [] none wCreateReqPlain "evt_fffffffffff1" 0
      DeliverOutcome.failure true).sends.length = 2 ∧
    ¬ ((create_event [] none wCreateReqPlain "evt_fffffffffff1" 0
      DeliverOutcome.failure true).sends.length = 1) := by
  have h2 : (create_event [] none wCreateReqPlain "evt_fffffffffff1" 0
      DeliverOutcome.failure true).sends.length = 2 := rfl
  exact ⟨h2, by omega⟩

/-- C2 (amended): whenever the push delivery returns `False` for a newly
created event, create leaves the stored event with `status=pending` and
`delivered_at=null` and invokes the queue send with the full event payload
exactly once when that send does not itself raise; if the first send
raises, the fallback handler makes exactly one further send invocation
(two in total, both carrying the full pending event).  A delivery
exception likewise leads to a single send.  Delivery and enqueue failures
never fail the create call: the HTTP status stays 201. -/
theorem create_fallback (store : EventStore) (userId : Option String) (req : CreateReq)
    (freshId : String) (now : Nat) (sendRaises : Bool)
    (hfresh : ∀ x ∈ store, x.event_id ≠ freshId) :
    get_event (createNewEvent store userId req freshId now
        DeliverOutcome.failure sendRaises).store freshId =
      some (pendingEventOf userId req freshId now) ∧
    (pendingEventOf userId req freshId now).status = "pending" ∧
    (pendingEventOf userId req freshId now).delivered_at = none ∧
    (createNewEvent store userId req freshId now
        DeliverOutcome.failure sendRaises).sends =
      (if sendRaises then
        [pendingEventOf userId req freshId now, pendingEventOf userId req freshId now]
       else [pendingEventOf userId req freshId now]) ∧
    (createNewEvent store userId req freshId now
        DeliverOutcome.failure sendRaises).httpStatus = 201 ∧
    (createNewEvent store userId req freshId now
        DeliverOutcome.raises sendRaises).sends = [pendingEventOf userId req freshId now] ∧
    (createNewEvent store userId req freshId now
        DeliverOutcome.raises sendRaises).httpStatus = 201 := by
  refine ⟨?_, rfl, rfl, rfl, rfl, rfl, rfl⟩
  rw [createNewEvent_store store userId req freshId now .failure sendRaises hfresh]
  exact get_event_append_fresh store _ freshId hfresh rfl

theorem create_fallback_witness :
    get_event (createNewEvent [] none wCreateReqPlain "evt_fffffffffff2" 3
        DeliverOutcome.failure false).store "evt_fffffffffff2" =
      some (pendingEventOf none wCreateReqPlain "evt_fffffffffff2" 3) ∧
    (pendingEventOf none wCreateReqPlain "evt_fffffffffff2" 3).status = "pending" ∧
    (pendingEventOf none wCreateReqPlain "evt_fffffffffff2" 3).delivered_at = none ∧
    (createNewEvent [] none wCreateReqPlain "evt_fffffffffff2" 3
        DeliverOutcome.failure false).sends =
      (if false then
        [pendingEventOf none wCreateReqPlain "evt_fffffffffff2" 3,
         pendingEventOf none wCreateReqPlain "evt_fffffffffff2" 3]
       else [pendingEventOf none wCreateReqPlain "evt_fffffffffff2" 3]) ∧
    (createNewEvent [] none wCreateReqPlain "evt_fffffffffff2" 3
        DeliverOutcome.failure false).httpStatus = 201 ∧
    (createNewEvent [] none wCreateReqPlain "evt_fffffffffff2" 3
        DeliverOutcome.raises false).sends =
      [pendingEventOf none wCreateReqPlain "evt_fffffffffff2" 3] ∧
    (createNewEvent [] none wCreateReqPlain "evt_fffffffffff2" 3
        DeliverOutcome.raises false).httpStatus = 201 :=
  create_fallback [] none wCreateReqPlain "evt_fffffffffff2" 3 false (by simp)

/-- C6 (code bug): the failed-replay path of `replay_event` stores
`status="pending"` with `delivered_at` left at its old non-null value — it
never clears it, even though the invariant says `delivered_at` must be
null after a reset to pending, and even though the handler's own
`ReplayResponse` in this branch reports `delivered_at=None` to the
caller. -/
theorem failed_replay_keeps_delivered_at :
    (get_event (replay_event [wDelivered] "evt_ddddddddddd1" "manual" none 7 false).store
        "evt_ddddddddddd1").map (fun x => (x.status, x.delivered_at)) =
      some ("pending", some 5) ∧
    (replay_event [wDelivered] "evt_ddddddddddd1" "manual" none 7 false).outcome =
      ReplayOutcome.queuedOk := by
  exact ⟨rfl, rfl⟩

/-- C9: for every existing event, acknowledge changes only the status
field (to delivered) and the `delivered_at` field (to the current time);
`event_type`, `payload`, `metadata`, `created_at`, `delivery_attempts`,
`user_id` and `idempotency_key` are unchanged — in particular acknowledge
does not increment `delivery_attempts`, so it never consumes
replay-ceiling budget — and every other stored event is untouched. -/
theorem acknowledge_frame (store : EventStore) (eventId : String) (now : Nat)
    (e : EventRec) (hfound : get_event store eventId = some e) :
    ∃ e', get_event (acknowledge_event store eventId now).store eventId = some e' ∧
      e'.status = "delivered" ∧ e'.delivered_at = some now ∧
      e'.event_type = e.event_type ∧ e'.payload = e.payload ∧
      e'.metadata = e.metadata ∧ e'.created_at = e.created_at ∧
      e'.delivery_attempts = e.delivery_attempts ∧ e'.user_id = e.user_id ∧
      e'.idempotency_key = e.idempotency_key ∧ e'.event_id = e.event_id ∧
      (∀ otherId, otherId ≠ eventId →
        get_event (acknowledge_event store eventId now).store otherId =
          get_event store otherId) := by
  have hid : e.event_id = eventId := by
    have h0 := hfound
    rw [get_event] at h0
    simpa using List.find?_some h0
  have hack : acknowledge_event store eventId now =
      { found := true,
        store := put_event store
          { e with status := "delivered", delivered_at := some now } } := by
    rw [acknowledge_event, hfound]
  refine ⟨{ e with status := "delivered", delivered_at := some now },
    ?_, rfl, rfl, rfl, rfl, rfl, rfl, rfl, rfl, rfl, rfl, ?_⟩
  · rw [hack]
    exact get_event_put_of_found store eventId e _ hfound hid
  · intro otherId hother
    rw [hack]
    have hne : ({ e with status := "delivered", delivered_at := some now } :
        EventRec).event_id ≠ otherId := by
      show e.event_id ≠ otherId
      rw [hid]
      exact Ne.symm hother
    exact get_event_put_ne store _ otherId hne

theorem acknowledge_frame_witness :
    ∃ e', get_event (acknowledge_event [wDelivered] "evt_ddddddddddd1" 9).store
        "evt_ddddddddddd1" = some e' ∧
      e'.status = "delivered" ∧ e'.delivered_at = some 9 ∧
      e'.event_type = wDelivered.event_type ∧ e'.payload = wDelivered.payload ∧
      e'.metadata = wDelivered.metadata ∧ e'.created_at = wDelivered.created_at ∧
      e'.delivery_attempts = wDelivered.delivery_attempts ∧
      e'.user_id = wDelivered.user_id ∧
      e'.idempotency_key = wDelivered.idempotency_key ∧
      e'.event_id = wDelivered.event_id ∧
      (∀ otherId, otherId ≠ "evt_ddddddddddd1" →
        get_event (acknowledge_event [wDelivered] "evt_ddddddddddd1" 9).store otherId =
          get_event [wDelivered] otherId) :=
  acknowledge_frame [wDelivered] "evt_ddddddddddd1" 9 wDelivered rfl

theorem applyUpdateFields_frame (req : UpdateReq) (e : EventRec) :
    (applyUpdateFields req e).status = e.status ∧
    (applyUpdateFields req e).delivered_at = e.delivered_at ∧
    (applyUpdateFields req e).delivery_attempts = e.delivery_attempts ∧
    (applyUpdateFields req e).event_id = e.event_id := by
  rcases req with ⟨pf, mf, kf⟩
  rcases pf with _ | (_ | p) <;> rcases mf with _ | m <;> rcases kf with _ | k <;>
    exact ⟨rfl, rfl, rfl, rfl⟩

theorem update_event_handler_spec (store : EventStore) (eventId : String)
    (req : UpdateReq) (authUser : Option String) (e : EventRec)
    (hfound : get_event store eventId = some e)
    (hown : authUser = none ∨ e.user_id = authUser)
    (hsome : req.payloadField.isSome ∨ req.metadataField.isSome ∨ req.keyField.isSome)
    (hpay : req.payloadField ≠ some none) :
    ∃ e', get_event (update_event_handler store eventId req authUser).store eventId =
        some e' ∧
      e'.delivery_attempts = e.delivery_attempts ∧
      ((e.status = "delivered" ∨ e.status = "replayed") →
        e'.status = "pending" ∧ e'.delivered_at = none ∧
        (update_event_handler store eventId req authUser).sends = [e'] ∧
        (update_event_handler store eventId req authUser).outcome =
          UpdateOutcome.updated true) ∧
      (¬(e.status = "delivered" ∨ e.status = "replayed") →
        e'.status = e.status ∧ e'.delivered_at = e.delivered_at ∧
        (update_event_handler store eventId req authUser).sends = [] ∧
        (update_event_handler store eventId req authUser).outcome =
          UpdateOutcome.updated false) := by
  have hid : e.event_id = eventId := by
    have h0 := hfound
    rw [get_event] at h0
    simpa using List.find?_some h0
  have hownb : (authUser.isSome && e.user_id != authUser) = false := by
    rcases hown with h | h
    · rw [h]; rfl
    · rw [h]; simp
  have hfieldsb : (req.payloadField.isNone && req.metadataField.isNone &&
      req.keyField.isNone) = false := by
    rcases hsome with h | h | h <;>
      rcases Option.isSome_iff_exists.mp h with ⟨v, hv⟩ <;> rw [hv] <;> simp
  obtain ⟨hst, hda, hatt, hidf⟩ := applyUpdateFields_frame req e
  by_cases hdeliv : e.status = "delivered" ∨ e.status = "replayed"
  · have hcond : ((applyUpdateFields req e).status == "delivered" ||
        (applyUpdateFields req e).status == "replayed") = true := by
      rw [hst]
      rcases hdeliv with h | h <;> simp [h]
    have hred : update_event_handler store eventId req authUser =
        { outcome := UpdateOutcome.updated true,
          store := put_event store
            { applyUpdateFields req e with status := "pending", delivered_at := none },
          sends := [{ applyUpdateFields req e with
            status := "pending", delivered_at := none }],
          updateCalls := 1 } := by
      cases hpf : req.payloadField with
      | none =>
          simp [update_event_handler, hfound, hownb, hfieldsb, hpf, hcond]
          intro hm hk
          rcases hsome with h | h | h
          · rw [hpf] at h; simp at h
          · rw [hm] at h; simp at h
          · rw [hk] at h; simp at h
      | some o =>
          cases o with
          | none => exact absurd hpf hpay
          | some p => simp [update_event_handler, hfound, hownb, hfieldsb, hpf, hcond]
    refine ⟨{ applyUpdateFields req e with status := "pending", delivered_at := none },
      ?_, hatt, ?_, ?_⟩
    · rw [hred]
      apply get_event_put_of_found store eventId e _ hfound
      show (applyUpdateFields req e).event_id = eventId
      rw [hidf, hid]
    · intro _
      exact ⟨rfl, rfl, by rw [hred], by rw [hred]⟩
    · intro hcontra
      exact absurd hdeliv hcontra
  · have hcond : ((applyUpdateFields req e).status == "delivered" ||
        (applyUpdateFields req e).status == "replayed") = false := by
      rw [hst]
      push_neg at hdeliv
      simp [hdeliv.1, hdeliv.2]
    have hred : update_event_handler store eventId req authUser =
        { outcome := UpdateOutcome.updated false,
          store := put_event store (applyUpdateFields req e),
          sends := [], updateCalls := 1 } := by
      cases hpf : req.payloadField with
      | none =>
          simp [update_event_handler, hfound, hownb, hfieldsb, hpf, hcond]
          intro hm hk
          rcases hsome with h | h | h
          · rw [hpf] at h; simp at h
          · rw [hm] at h; simp at h
          · rw [hk] at h; simp at h
      | some o =>
          cases o with
          | none => exact absurd hpf hpay
          | some p => simp [update_event_handler, hfound, hownb, hfieldsb, hpf, hcond]
    refine ⟨applyUpdateFields req e, ?_, hatt, ?_, ?_⟩
    · rw [hred]
      apply get_event_put_of_found store eventId e _ hfound
      show (applyUpdateFields req e).event_id = eventId
      rw [hidf, hid]
    · intro h
      exact absurd h hdeliv
    · intro _
      exact ⟨hst, hda, by rw [hred], by rw [hred]⟩

/-- C3: for every existing event whose pre-update status is delivered or
replayed, a successful update resets status to pending and `delivered_at`
to null and enqueues the updated event exactly once; for every event whose
pre-update status is pending or failed, update performs no enqueue and
leaves the status unchanged. -/
theorem update_redelivery (store : EventStore) (eventId : String) (req : UpdateReq)
    (authUser : Option String) (e : EventRec)
    (hfound : get_event store eventId = some e)
    (hown : authUser = none ∨ e.user_id = authUser)
    (hsome : req.payloadField.isSome ∨ req.metadataField.isSome ∨ req.keyField.isSome)
    (hpay : req.payloadField ≠ some none) :
    ((e.status = "delivered" ∨ e.status = "replayed") →
      ∃ e', get_event (update_event_handler store eventId req authUser).store eventId =
          some e' ∧
        e'.status = "pending" ∧ e'.delivered_at = none ∧
        (update_event_handler store eventId req authUser).sends = [e'] ∧
        (update_event_handler store eventId req authUser).outcome =
          UpdateOutcome.updated true) ∧
    ((e.status = "pending" ∨ e.status = "failed") →
      (update_event_handler store eventId req authUser).sends = [] ∧
      ∃ e', get_event (update_event_handler store eventId req authUser).store eventId =
          some e' ∧ e'.status = e.status) := by
  obtain ⟨e', hget, hatt, h1, h2⟩ :=
    update_event_handler_spec store eventId req authUser e hfound hown hsome hpay
  constructor
  · intro h
    obtain ⟨hs, hd, hsend, hout⟩ := h1 h
    exact ⟨e', hget, hs, hd, hsend, hout⟩
  · intro h
    have hnd : ¬(e.status = "delivered" ∨ e.status = "replayed") := by
      rcases h with h | h <;> rw [h] <;> decide
    obtain ⟨hs, hd, hsend, hout⟩ := h2 hnd
    exact ⟨hsend, e', hget, hs⟩

theorem update_redelivery_witness :
    (("delivered" : String) = "delivered" ∨ ("delivered" : String) = "replayed") ∧
    (((wDelivered.status = "delivered" ∨ wDelivered.status = "replayed") →
      ∃ e', get_event (update_event_handler [wDelivered] "evt_ddddddddddd1" wUpdateReq
          (some "u1")).store "evt_ddddddddddd1" = some e' ∧
        e'.status = "pending" ∧ e'.delivered_at = none ∧
        (update_event_handler [wDelivered] "evt_ddddddddddd1" wUpdateReq
          (some "u1")).sends = [e'] ∧
        (update_event_handler [wDelivered] "evt_ddddddddddd1" wUpdateReq
          (some "u1")).outcome = UpdateOutcome.updated true) ∧
    ((wDelivered.status = "pending" ∨ wDelivered.status = "failed") →
      (update_event_handler [wDelivered] "evt_ddddddddddd1" wUpdateReq
        (some "u1")).sends = [] ∧
      ∃ e', get_event (update_event_handler [wDelivered] "evt_ddddddddddd1" wUpdateReq
          (some "u1")).store "evt_ddddddddddd1" = some e' ∧
        e'.status = wDelivered.status)) :=
  ⟨Or.inl rfl,
    update_redelivery [wDelivered] "evt_ddddddddddd1" wUpdateReq (some "u1") wDelivered
      rfl (Or.inr rfl) (Or.inr (Or.inl rfl)) (by simp [wUpdateReq])⟩

/-- C4: for every event with `delivery_attempts >= 10`, replay — both the
single-event handler and the batch loop body — is rejected with the
validation-class HTTP 400 / `MAX_ATTEMPTS_EXCEEDED` error, no delivery is
attempted, no enqueue happens, and the stored event is not mutated in any
field (the whole store is returned unchanged, so the otherwise-performed
replay-provenance metadata merge does not happen either). -/
theorem replay_ceiling (store : EventStore) (eventId reason : String)
    (wf : Option String) (now : Nat) (dOk : Bool) (userId : Option String)
    (e : EventRec) (hfound : get_event store eventId = some e)
    (hceil : 10 ≤ e.delivery_attempts)
    (hown : userId = none ∨ e.user_id = userId) :
    (replay_event store eventId reason wf now dOk).outcome = ReplayOutcome.maxAttempts ∧
    (replay_event store eventId reason wf now dOk).store = store ∧
    (replay_event store eventId reason wf now dOk).deliverCalls = 0 ∧
    (replay_event store eventId reason wf now dOk).updateCalls = 0 ∧
    (replay_event store eventId reason wf now dOk).sends = [] ∧
    (batchReplayStep store userId eventId now dOk).item.success = false ∧
    (batchReplayStep store userId eventId now dOk).item.errorCode =
      some "MAX_ATTEMPTS_EXCEEDED" ∧
    (batchReplayStep store userId eventId now dOk).store = store ∧
    (batchReplayStep store userId eventId now dOk).deliverCalls = 0 ∧
    (batchReplayStep store userId eventId now dOk).sends = [] := by
  have hownb : (userId.isSome && e.user_id != userId) = false := by
    rcases hown with h | h
    · rw [h]; rfl
    · rw [h]; simp
  have hr : replay_event store eventId reason wf now dOk =
      { outcome := .maxAttempts, store := store, deliverCalls := 0,
        updateCalls := 0, sends := [] } := by
    simp [replay_event, hfound, hceil]
  have hb : batchReplayStep store userId eventId now dOk =
      { item := { success := false, errorCode := some "MAX_ATTEMPTS_EXCEEDED",
                  itemStatus := "failed" },
        store := store, deliverCalls := 0, sends := [] } := by
    simp [batchReplayStep, hfound, hownb, hceil]
  rw [hr, hb]
  exact ⟨rfl, rfl, rfl, rfl, rfl, rfl, rfl, rfl, rfl, rfl⟩

theorem replay_ceiling_witness :
    10 ≤ wMaxedOut.delivery_attempts ∧
    ((replay_event [wMaxedOut] "evt_ddddddddddd2" "manual" none 7 false).outcome =
      ReplayOutcome.maxAttempts ∧
    (replay_event [wMaxedOut] "evt_ddddddddddd2" "manual" none 7 false).store =
      [wMaxedOut] ∧
    (replay_event [wMaxedOut] "evt_ddddddddddd2" "manual" none 7 false).deliverCalls = 0 ∧
    (replay_event [wMaxedOut] "evt_ddddddddddd2" "manual" none 7 false).updateCalls = 0 ∧
    (replay_event [wMaxedOut] "evt_ddddddddddd2" "manual" none 7 false).sends = [] ∧
    (batchReplayStep [wMaxedOut] (some "u1") "evt_ddddddddddd2" 7 false).item.success =
      false ∧
    (batchReplayStep [wMaxedOut] (some "u1") "evt_ddddddddddd2" 7 false).item.errorCode =
      some "MAX_ATTEMPTS_EXCEEDED" ∧
    (batchReplayStep [wMaxedOut] (some "u1") "evt_ddddddddddd2" 7 false).store =
      [wMaxedOut] ∧
    (batchReplayStep [wMaxedOut] (some "u1") "evt_ddddddddddd2" 7 false).deliverCalls = 0 ∧
    (batchReplayStep [wMaxedOut] (some "u1") "evt_ddddddddddd2" 7 false).sends = []) :=
  ⟨by decide,
    replay_ceiling [wMaxedOut] "evt_ddddddddddd2" "manual" none 7 false (some "u1")
      wMaxedOut rfl (by decide) (Or.inr rfl)⟩

theorem replay_event_spec (store : EventStore) (eventId reason : String)
    (wf : Option String) (now : Nat) (dOk : Bool) (e : EventRec)
    (hfound : get_event store eventId = some e)
    (hlt : e.delivery_attempts < 10) :
    ∃ e', get_event (replay_event store eventId reason wf now dOk).store eventId =
        some e' ∧
      e'.delivery_attempts = e.delivery_attempts + 1 ∧
      (dOk = true → e'.status = "replayed" ∧ e'.delivered_at = some now ∧
        (replay_event store eventId reason wf now dOk).sends = []) ∧
      (dOk = false → e'.status = "pending" ∧ e'.delivered_at = e.delivered_at ∧
        (replay_event store eventId reason wf now dOk).sends = [e']) := by
  have hid : e.event_id = eventId := by
    have h0 := hfound
    rw [get_event] at h0
    simpa using List.find?_some h0
  have hnc : ¬ (e.delivery_attempts ≥ 10) := by omega
  cases dOk with
  | true =>
      have hr : replay_event store eventId reason wf now true =
          { outcome := .replayedOk,
            store := put_event store { e with
              metadata := some (mergeReplayMetadata e.metadata
                (replayMetadata reason wf now e)),
              status := "replayed",
              delivery_attempts := e.delivery_attempts + 1,
              delivered_at := some now },
            deliverCalls := 1, updateCalls := 1, sends := [] } := by
        simp [replay_event, hfound, hnc]
      refine ⟨{ e with
          metadata := some (mergeReplayMetadata e.metadata
            (replayMetadata reason wf now e)),
          status := "replayed",
          delivery_attempts := e.delivery_attempts + 1,
          delivered_at := some now }, ?_, rfl, ?_, ?_⟩
      · rw [hr]
        exact get_event_put_of_found store eventId e _ hfound hid
      · intro _
        exact ⟨rfl, rfl, by rw [hr]⟩
      · intro h
        exact absurd h (by decide)
  | false =>
      have hr : replay_event store eventId reason wf now false =
          { outcome := .queuedOk,
            store := put_event store { e with
              metadata := some (mergeReplayMetadata e.metadata
                (replayMetadata reason wf now e)),
              status := "pending",
              delivery_attempts := e.delivery_attempts + 1 },
            deliverCalls := 1, updateCalls := 1,
            sends := [{ e with
              metadata := some (mergeReplayMetadata e.metadata
                (replayMetadata reason wf now e)),
              status := "pending",
              delivery_attempts := e.delivery_attempts + 1 }] } := by
        simp [replay_event, hfound, hnc]
      refine ⟨{ e with
          metadata := some (mergeReplayMetadata e.metadata
            (replayMetadata reason wf now e)),
          status := "pending",
          delivery_attempts := e.delivery_attempts + 1 }, ?_, rfl, ?_, ?_⟩
      · rw [hr]
        exact get_event_put_of_found store eventId e _ hfound hid
      · intro h
        exact absurd h (by decide)
      · intro _
        exact ⟨rfl, rfl, by rw [hr]⟩

/-- C5 (counterexample): a failed immediate push during create performs a
delivery attempt (`deliver_event` is called once) yet the stored event's
`delivery_attempts` stays 0 — the counter is not incremented on that
failed attempt, contradicting the claim that every delivery attempt
increments it by exactly one. -/
theorem delivery_attempts_counterexample :
    (create_event [] none wCreateReqPlain "evt_fffffffffff3" 0
      DeliverOutcome.failure false).deliverCalls = 1 ∧
    (get_event (create_event [] none wCreateReqPlain "evt_fffffffffff3" 0
        DeliverOutcome.failure false).store "evt_fffffffffff3").map
      (fun x => x.delivery_attempts) = some 0 := by
  exact ⟨rfl, rfl⟩

/-- C5 (amended): create's immediate push increments the stored
`delivery_attempts` to 1 only when it succeeds; a failed push leaves the
counter at 0 (the queued worker attempt increments it instead).  Replay
and the queue worker increment the counter by exactly one on every
attempt, success or failure.  Update and acknowledge leave the counter
unchanged.  No modelled operation ever decreases it. -/
theorem delivery_attempts_amended
    (storeC : EventStore) (userIdC : Option String) (reqC : CreateReq)
    (freshId : String) (nowC : Nat) (srC : Bool)
    (hfreshC : ∀ x ∈ storeC, x.event_id ≠ freshId)
    (store : EventStore) (eventId reason : String) (wf : Option String)
    (now : Nat) (e : EventRec)
    (hfound : get_event store eventId = some e)
    (hlt : e.delivery_attempts < 10)
    (ureq : UpdateReq) (authUser : Option String)
    (hown : authUser = none ∨ e.user_id = authUser)
    (hsome : ureq.payloadField.isSome ∨ ureq.metadataField.isSome ∨ ureq.keyField.isSome)
    (hpay : ureq.payloadField ≠ some none) :
    ((get_event (createNewEvent storeC userIdC reqC freshId nowC
        DeliverOutcome.success srC).store freshId).map
      (fun x => x.delivery_attempts) = some 1) ∧
    ((get_event (createNewEvent storeC userIdC reqC freshId nowC
        DeliverOutcome.failure srC).store freshId).map
      (fun x => x.delivery_attempts) = some 0 ∧
      (createNewEvent storeC userIdC reqC freshId nowC
        DeliverOutcome.failure srC).deliverCalls = 1) ∧
    (∀ dOk, (get_event (replay_event store eventId reason wf now dOk).store
        eventId).map (fun x => x.delivery_attempts) =
      some (e.delivery_attempts + 1)) ∧
    (∀ dOk, (get_event (workerStep store eventId now dOk).store eventId).map
      (fun x => x.delivery_attempts) = some (e.delivery_attempts + 1)) ∧
    ((get_event (acknowledge_event store eventId now).store eventId).map
      (fun x => x.delivery_attempts) = some e.delivery_attempts) ∧
    ((get_event (update_event_handler store eventId ureq authUser).store eventId).map
      (fun x => x.delivery_attempts) = some e.delivery_attempts) := by
  have hid : e.event_id = eventId := by
    have h0 := hfound
    rw [get_event] at h0
    simpa using List.find?_some h0
  refine ⟨?_, ⟨?_, rfl⟩, ?_, ?_, ?_, ?_⟩
  · rw [createNewEvent_store storeC userIdC reqC freshId nowC .success srC hfreshC,
      get_event_append_fresh storeC _ freshId hfreshC rfl]
    rfl
  · rw [createNewEvent_store storeC userIdC reqC freshId nowC .failure srC hfreshC,
      get_event_append_fresh storeC _ freshId hfreshC rfl]
    rfl
  · intro dOk
    obtain ⟨e', hget, hatt, _, _⟩ :=
      replay_event_spec store eventId reason wf now dOk e hfound hlt
    rw [hget]
    simp [hatt]
  · intro dOk
    cases dOk with
    | true =>
        have hw : workerStep store eventId now true =
            { store := put_event store { e with
                status := "delivered", delivered_at := some now,
                delivery_attempts := e.delivery_attempts + 1 },
              reportedFailure := false, deliverCalls := 1 } := by
          simp [workerStep, hfound]
        have hg := get_event_put_of_found store eventId e { e with status := "delivered", delivered_at := some now, delivery_attempts := e.delivery_attempts + 1 } hfound hid
        rw [hw, hg]
        rfl
    | false =>
        have hw : workerStep store eventId now false =
            { store := put_event store
                { e with delivery_attempts := e.delivery_attempts + 1 },
              reportedFailure := true, deliverCalls := 1 } := by
          simp [workerStep, hfound]
        have hg := get_event_put_of_found store eventId e { e with delivery_attempts := e.delivery_attempts + 1 } hfound hid
        rw [hw, hg]
        rfl
  · have ha : acknowledge_event store eventId now =
        { found := true,
          store := put_event store
            { e with status := "delivered", delivered_at := some now } } := by
      rw [acknowledge_event, hfound]
    have hg := get_event_put_of_found store eventId e { e with status := "delivered", delivered_at := some now } hfound hid
    rw [ha, hg]
    rfl
  · obtain ⟨e', hget, hatt, _, _⟩ :=
      update_event_handler_spec store eventId ureq authUser e hfound hown hsome hpay
    rw [hget]
    simp [hatt]

theorem delivery_attempts_amended_witness :
    (∀ x ∈ ([] : EventStore), x.event_id ≠ "evt_fffffffffff4") ∧
    get_event [wDelivered] "evt_ddddddddddd1" = some wDelivered ∧
    wDelivered.delivery_attempts < 10 ∧
    (((get_event (createNewEvent [] none wCreateReqPlain "evt_fffffffffff4" 0
        DeliverOutcome.success false).store "evt_fffffffffff4").map
      (fun x => x.delivery_attempts) = some 1) ∧
    ((get_event (createNewEvent [] none wCreateReqPlain "evt_fffffffffff4" 0
        DeliverOutcome.failure false).store "evt_fffffffffff4").map
      (fun x => x.delivery_attempts) = some 0 ∧
      (createNewEvent [] none wCreateReqPlain "evt_fffffffffff4" 0
        DeliverOutcome.failure false).deliverCalls = 1) ∧
    (∀ dOk, (get_event (replay_event [wDelivered] "evt_ddddddddddd1" "manual" none 8
        dOk).store "evt_ddddddddddd1").map (fun x => x.delivery_attempts) =
      some (wDelivered.delivery_attempts + 1)) ∧
    (∀ dOk, (get_event (workerStep [wDelivered] "evt_ddddddddddd1" 8 dOk).store
        "evt_ddddddddddd1").map (fun x => x.delivery_attempts) =
      some (wDelivered.delivery_attempts + 1)) ∧
    ((get_event (acknowledge_event [wDelivered] "evt_ddddddddddd1" 8).store
        "evt_ddddddddddd1").map (fun x => x.delivery_attempts) =
      some wDelivered.delivery_attempts) ∧
    ((get_event (update_event_handler [wDelivered] "evt_ddddddddddd1" wUpdateReq
        (some "u1")).store "evt_ddddddddddd1").map (fun x => x.delivery_attempts) =
      some wDelivered.delivery_attempts)) :=
  ⟨by simp, rfl, by decide,
    delivery_attempts_amended [] none wCreateReqPlain "evt_fffffffffff4" 0 false
      (by simp) [wDelivered] "evt_ddddddddddd1" "manual" none 8 wDelivered rfl
      (by decide) wUpdateReq (some "u1") (Or.inr rfl) (Or.inr (Or.inl rfl))
      (by simp [wUpdateReq])⟩

set_option maxRecDepth 8192 in
/-- C7 (counterexample): the request model caps the body id list at 100,
but in filter mode the resolved set can still exceed 100 (up to 100
filter matches plus up to 100 body ids).  There the call is not rejected:
with 100 filter-matched ids and one validly formatted body id — a resolved
set of 101 — the request-body validation passes and the batch delete
pipeline succeeds, silently processing only the first 100 ids. -/
theorem batch_cap_counterexample :
    validateBatchDeleteBody (some ["evt_bbbbbbbbbbbb"]) = Except.ok () ∧
    (dedupIds (batchUnion filteredIds100 (some ["evt_bbbbbbbbbbbb"]) true)).length = 101 ∧
    batchDeleteTargets filteredIds100 (some ["evt_bbbbbbbbbbbb"]) true =
      Except.ok ((dedupIds (batchUnion filteredIds100
        (some ["evt_bbbbbbbbbbbb"]) true)).take 100) ∧
    ((dedupIds (batchUnion filteredIds100
      (some ["evt_bbbbbbbbbbbb"]) true)).take 100).length = 100 := by
  exact ⟨rfl, rfl, rfl, rfl⟩

/-- C7 (amended): batch create and the list mode of batch update reject a
batch of more than 100 items up front with a validation error (and accept
at most 100); batch delete's request model likewise rejects a body id
list longer than 100 with a validation error before the handler runs.
But when the filter-matched ids unioned with a valid body list exceed 100,
batch delete (and batch replay, which shares the handler logic) does not
reject the call: it caps the resolved set to its first 100 ids and
processes only those (silent truncation with a logged warning, not a
validation error). -/
theorem batch_cap_amended
    (itemsBig itemsOk : List Nat)
    (hbig : itemsBig.length > 100) (hok : itemsOk.length ≤ 100)
    (bigBody : List String) (hbigBody : bigBody.length > 100)
    (filteredIds : List String) (bodyIds : Option (List String)) (hasFilters : Bool)
    (hbody : validateBatchDeleteBody bodyIds = Except.ok ())
    (hne : dedupIds (batchUnion filteredIds bodyIds hasFilters) ≠ []) :
    validate_batch_size itemsBig 100 =
      Except.error "batch size cannot exceed max items" ∧
    validate_batch_size itemsOk 100 = Except.ok () ∧
    validateBatchDeleteBody (some bigBody) =
      Except.error "batch size cannot exceed 100 events" ∧
    batchDeleteTargets filteredIds bodyIds hasFilters =
      Except.ok ((dedupIds (batchUnion filteredIds bodyIds hasFilters)).take 100) := by
  refine ⟨?_, ?_, ?_, ?_⟩
  · rw [validate_batch_size, if_pos hbig]
  · rw [validate_batch_size, if_neg (by omega)]
  · have hemp : bigBody.isEmpty = false := by
      cases bigBody with
      | nil => simp at hbigBody
      | cons a l => rfl
    rw [validateBatchDeleteBody]
    rw [if_neg (by rw [hemp]; exact Bool.false_ne_true), if_pos hbigBody]
  · have hres : resolveBatchTargets filteredIds bodyIds hasFilters =
        Except.ok ((dedupIds (batchUnion filteredIds bodyIds hasFilters)).take 100) := by
      cases hdd : dedupIds (batchUnion filteredIds bodyIds hasFilters) with
      | nil => exact absurd hdd hne
      | cons a l => simp [resolveBatchTargets, hdd]
    have hun : batchDeleteTargets filteredIds bodyIds hasFilters =
        validateBatchDeleteBody bodyIds >>= fun _ =>
          resolveBatchTargets filteredIds bodyIds hasFilters := rfl
    rw [hun, hbody]
    exact hres

theorem batch_cap_amended_witness :
    (List.range 101).length > 100 ∧ ([0] : List Nat).length ≤ 100 ∧
    (List.replicate 101 "x").length > 100 ∧
    validateBatchDeleteBody (some ["evt_cccccccccccc"]) = Except.ok () ∧
    dedupIds (batchUnion ["evt_aaaaaaaaaaa1"] (some ["evt_cccccccccccc"]) true) ≠ [] ∧
    (validate_batch_size (List.range 101) 100 =
      Except.error "batch size cannot exceed max items" ∧
    validate_batch_size ([0] : List Nat) 100 = Except.ok () ∧
    validateBatchDeleteBody (some (List.replicate 101 "x")) =
      Except.error "batch size cannot exceed 100 events" ∧
    batchDeleteTargets ["evt_aaaaaaaaaaa1"] (some ["evt_cccccccccccc"]) true =
      Except.ok ((dedupIds (batchUnion ["evt_aaaaaaaaaaa1"]
        (some ["evt_cccccccccccc"]) true)).take 100)) :=
  ⟨by simp, by simp, by simp, rfl, by decide,
    batch_cap_amended (List.range 101) [0] (by simp) (by simp)
      (List.replicate 101 "x") (by simp) ["evt_aaaaaaaaaaa1"]
      (some ["evt_cccccccccccc"]) true rfl (by decide)⟩

/-- C8 (code bug): the query value arriving from the HTTP query string is
always a string, so evaluating `payload.amount[gte]=100` against events
whose payload amounts are the numbers 99.99, 150.00 and 75.50 raises
`TypeError` inside `_event_matches_filter` (a number is compared with `>=`
against a string) instead of returning the event with amount 150.00, while
the handler docstrings advertise exactly this query; the
`event_type[startswith]=order.` half of the claim does behave as stated,
returning exactly the two `order.*` events. -/
theorem filter_eval_code_bug :
    apply_filters_to_events [filterEvent1, filterEvent2, filterEvent3]
        [{ field := "payload.amount", operator := "gte", value := "100" }] =
      Except.error "TypeError: comparison not supported between instances" ∧
    apply_filters_to_events [filterEvent1, filterEvent2, filterEvent3]
        [{ field := "event_type", operator := "startswith", value := "order." }] =
      Except.ok [filterEvent1, filterEvent3] := by
  exact ⟨rfl, rfl⟩

end ZapierEvents
